import Mathlib

/-!
Verification development for the closed-loop epidemic controller of the
inside-schools repository.  The embedded code comes from two source files:

* `covasim_controller/SEIR.py` — the `TransitionMatrix` builder and the
  `SEIR` state-space model;
* `covasim_controller/controller_intervention.py` — the per-day control-loop
  orchestrator `controller_intervention.apply`.

Python machine arithmetic on the observed counts and rates is modelled
exactly over `ℚ`; day indices are `ℤ`.  Fallible Python code (attribute
lookups, exceptions) is modelled with `Except`.
-/

namespace InsideSchools

/-- Python exception values relevant to the embedded code. -/
inductive PyErr
  | attributeError (attr : String)
  | assertionError
  deriving DecidableEq

/-- A numpy 2-D array of rationals: its shape plus an entry function.
Entries outside the `rows × cols` range are read as `0`. -/
structure Mat where
  rows : ℕ
  cols : ℕ
  entry : ℕ → ℕ → ℚ

/-- The `t`-th triangular number `t = n (n+1) / 2`, the number of entries in
the lower triangle (diagonal included) of an `n × n` matrix. -/
def triNat (n : ℕ) : ℕ :=
  n * (n + 1) / 2

/-- The dimension computed at SEIR.py line 10,
`n = int((-1 + np.sqrt(1 + 8*len(p))) / 2)`.  The argument of `np.sqrt` is the
integer `1 + 8k`; the float square root followed by `int(...)` truncation is
modelled exactly by the integer floor square root `Nat.sqrt`. -/
def triN (k : ℕ) : ℕ :=
  (Nat.sqrt (1 + 8 * k) - 1) / 2

/-- TransitionMatrix.full (SEIR.py lines 9–14).  `np.put` together with
`np.ravel_multi_index(np.tril_indices(n), M.shape)` writes `p[t]` to the `t`-th
lower-triangular position of `M` in row-major order; the position of `(i, j)`
with `j ≤ i` in that order is `i (i+1)/2 + j`.  `np.put` ignores any values of
`p` beyond the number of target indices, so no exception is raised for any
input length. -/
def TransitionMatrix.full (p : List ℚ) : Mat :=
  let n := triN p.length
  ⟨n, n, fun i j => if i < n ∧ j < n ∧ j ≤ i then p.getD (triNat i + j) 0 else 0⟩

/-- Row-major flattening of the lower triangle (diagonal included) of the
leading `n × n` block of `L`: the list `[L 0 0, L 1 0, L 1 1, L 2 0, …]`. -/
def lowerTriFlatten (n : ℕ) (L : ℕ → ℕ → ℚ) : List ℚ :=
  (List.range n).flatMap fun i => (List.range (i + 1)).map fun j => L i j

/-- Attribute set of a `SEIR` instance at the moment `_build` is entered from
`__init__` (SEIR.py lines 17–25): exactly the five attributes assigned at
lines 19–23.  The names `nIR`, `nEI` and `nEIR` are read by the class
(lines 33, 37 and 61) but no statement anywhere in the class assigns them.
The optional observation argument `C` is only ever tested for being `None`
(line 50), so it is modelled as an `Option Unit` flag. -/
structure SEIRAttrs where
  nSteps : ℕ
  dt : ℚ
  EI : Mat
  IR : Mat
  C : Option Unit

/-- SEIR._build (SEIR.py lines 31–52), entered on the attribute set built by
`__init__`.  Its first statement, `belowEI = np.zeros((self.nIR, self.nEI))`
(line 33), evaluates `self.nIR`; `nIR` is not among the attributes of the
object (no statement in the class assigns it), so Python raises
`AttributeError` before any further statement of the method runs.  The block
expression of lines 40–44 that this method would otherwise assemble is
embedded separately as `buildA` below. -/
def SEIR_build (_ : SEIRAttrs) : Except PyErr Unit :=
  Except.error (PyErr.attributeError ("nIR"))

/-- SEIR.__init__ (SEIR.py lines 17–29): store the five arguments
(lines 19–23), then call `self._build()` (line 25).  If `_build` returned,
line 26 would evaluate `self.check_controllability`; the only occurrence of
`def check_controllability` in the class is inside the string literal of
lines 68–74, so no such method exists and that lookup would also raise
`AttributeError`.  Lines 27–29 are therefore unreachable and are not modelled
further. -/
def SEIR_init (nSteps : ℕ) (dt : ℚ) (EI IR : Mat) (C : Option Unit) :
    Except PyErr SEIRAttrs :=
  (SEIR_build ⟨nSteps, dt, EI, IR, C⟩).bind fun _ =>
    Except.error (PyErr.attributeError ("check_controllability"))

/-- Column sum of the leading `m` rows of column `j` of a matrix given as an
entry function — the value of `np.sum(M, axis=0)[j]` (SEIR.py lines 34–35). -/
def colSumFun (m : ℕ) (M : ℕ → ℕ → ℚ) (j : ℕ) : ℚ :=
  ∑ i ∈ Finset.range m, M i j

/-- The `belowEI` block of SEIR._build (lines 33–34): an `nIR × nEI` matrix
whose first row is `1 - np.sum(EI, axis=0)` and whose other rows are zero. -/
def belowEIblock (nEI nIR : ℕ) (EI : Matrix (Fin nEI) (Fin nEI) ℚ) :
    Matrix (Fin nIR) (Fin nEI) ℚ :=
  Matrix.of fun i j => if (i : ℕ) = 0 then 1 - ∑ r, EI r j else 0

/-- The `belowIR` block of SEIR._build (line 35): the row vector
`1 - np.sum(IR, axis=0)`. -/
def belowIRblock (nIR : ℕ) (IR : Matrix (Fin nIR) (Fin nIR) ℚ) :
    Matrix Unit (Fin nIR) ℚ :=
  Matrix.of fun _ j => 1 - ∑ r, IR r j

/-- The full SEIR state-transition matrix: the `np.block` expression of
SEIR._build, lines 40–44.  State indices are grouped as
`(S ⊕ E-stages) ⊕ (I-stages ⊕ R)`, matching the four block rows/columns
`[S | E_1..E_nEI | I_1..I_nIR | R]` of the source expression. -/
def buildA (nEI nIR : ℕ) (EI : Matrix (Fin nEI) (Fin nEI) ℚ)
    (IR : Matrix (Fin nIR) (Fin nIR) ℚ) :
    Matrix ((Unit ⊕ Fin nEI) ⊕ (Fin nIR ⊕ Unit))
      ((Unit ⊕ Fin nEI) ⊕ (Fin nIR ⊕ Unit)) ℚ :=
  Matrix.fromBlocks
    (Matrix.fromBlocks 1 0 0 EI)
    0
    (Matrix.fromBlocks 0 (belowEIblock nEI nIR EI) 0 0)
    (Matrix.fromBlocks IR 0 (belowIRblock nIR IR) 1)

/-- The stacked two-row observability matrix `[C; C·A]` of a two-state
subsystem, as assembled by SEIR.check_observability (lines 60–63) when
`nEI + nIR = 2`: row 0 is `C`, row 1 is the matrix product `C·A`. -/
def obsStack2 (A : Matrix (Fin 2) (Fin 2) ℚ) (C : Fin 2 → ℚ) :
    Matrix (Fin 2) (Fin 2) ℚ :=
  Matrix.of fun i j => if i = 0 then C j else ∑ k, C k * A k j

/-- The 1×1 `EI` sub-transition matrix `[[1/2]]` of a concrete `nE = 1`,
`nI = 1` model configuration. -/
def EIc1 : Mat :=
  ⟨1, 1, fun _ _ => 1 / 2⟩

/-- The 1×1 `IR` sub-transition matrix `[[1/4]]` of the same concrete
configuration. -/
def IRc1 : Mat :=
  ⟨1, 1, fun _ _ => 1 / 4⟩

/-- The E/I subsystem matrix `A[1:-1, 1:-1]` that `_build` would assemble for
`EIc1`/`IRc1`: `[[1/2, 0], [1/2, 1/4]]` (the E→E entry, the E→I inflow
`1 - 1/2`, and the I→I entry). -/
def AsubC1 : Matrix (Fin 2) (Fin 2) ℚ :=
  Matrix.of fun i j =>
    if i = 0 then (if j = 0 then 1 / 2 else 0)
    else (if j = 0 then 1 / 2 else 1 / 4)

/-- The E/I observation row `C[:, 1:-1] = [1, 1]` (SEIR.py lines 51–52). -/
def CsubC1 : Fin 2 → ℚ :=
  fun _ => 1

/-- A concrete lower-triangular entry function used to instantiate the
round-trip theorem: `L i j = 2 i + j + 1` on the lower triangle, `0` above. -/
def LC3 : ℕ → ℕ → ℚ :=
  fun i j => if j ≤ i then 2 * (i : ℚ) + (j : ℚ) + 1 else 0

/-- A concrete valid 1×1 `EI` sub-transition matrix, used to instantiate the
mass-conservation theorem. -/
def EIW : Matrix (Fin 1) (Fin 1) ℚ :=
  Matrix.of fun _ _ => 1 / 2

/-- A concrete valid 1×1 `IR` sub-transition matrix. -/
def IRW : Matrix (Fin 1) (Fin 1) ℚ :=
  Matrix.of fun _ _ => 1 / 3

/-- Modelled from the spec: the modules `.controller` and `.Kalman` imported at
the top of controller_intervention.py are not among the source files; per
spec §4.3–§4.4 the estimator exposes `update(E_obs, I_obs, u)` and the
accessors `EIhat`/`Ihat`, and the controller exposes `get_control`.  They are
modelled as an abstract estimator-state type `K` together with this bundle of
functions, over which every theorem about the orchestrator is universally
quantified.  `npPower` likewise abstracts `np.power` (line 104), whose
exponent `self.SEIR.Ipow` is configured outside the source files. -/
structure Hooks (K : Type) where
  kalmanUpdate : K → ℚ → ℚ → ℚ → K
  kalmanEIhat : K → List ℚ
  kalmanIhat : K → List ℚ
  getControl : List ℚ → ℚ
  npPower : ℚ → ℚ → ℚ

/-- Modelled from the spec: the host simulator's parameter dictionary entries
read and written by the orchestrator — the global transmission rate
`sim.pars['beta']` and the per-layer rates `sim.pars['beta_layer']` (a mapping
from layer key to rate). -/
structure SimPars where
  beta : ℚ
  beta_layer : String → ℚ

/-- Modelled from the spec: the host-simulator quantities read by
controller_intervention.apply (lines 58–67).  The per-day result arrays
`n_exposed` and `new_infections` are modelled as functions of the day index;
`exposed_ever` is the count `np.count_nonzero(~np.isnan(sim.people.date_exposed))`
of line 60 and `infectious_count` is `np.sum(sim.people.infectious)` of
line 61. -/
structure Sim where
  t : ℤ
  n_exposed : ℤ → ℚ
  new_infections : ℤ → ℚ
  scaled_pop_size : ℚ
  exposed_ever : ℚ
  infectious_count : ℚ
  pars : SimPars

/-- The mutable state of a `controller_intervention` instance after
`initialize` (controller_intervention.py lines 22–49): activation day,
target, the stored pre-control rates `beta0`/`beta_layer0`, the requested-rate
trajectory `u_k` (an array, modelled as a function of the day index), the
accumulated integral error, the configured exponent `SEIR.Ipow`, and the
estimator state. -/
structure CtrlState (K : Type) where
  start_day : ℤ
  targets_infected : ℚ
  beta0 : ℚ
  beta_layer0 : String → ℚ
  u_k : ℤ → ℚ
  integrated_err : ℚ
  Ipow : ℚ
  kalman : K

/-- Observable events of one `apply` call: a call to `Kalman.update` with its
arguments (lines 68 and 92), a call to `Controller.get_control` (line 88), and
the warning printed when the infectious estimate is non-positive (line 111). -/
inductive Event
  | kalmanUpdateCall (E I u : ℚ)
  | getControlCall
  | warningNegativeEstimate
  deriving DecidableEq

/-- Whether an event is a `Kalman.update` call. -/
def Event.isKalmanUpdate : Event → Bool
  | Event.kalmanUpdateCall _ _ _ => true
  | _ => false

/-- Result of one `apply` call: the mutated intervention state, the mutated
simulator object, and the list of observable events in program order. -/
structure ApplyResult (K : Type) where
  st : CtrlState K
  sim : Sim
  log : List Event

/-- The observed susceptible count `S = N - np.count_nonzero(...)` of
line 60. -/
def obsS (sim : Sim) : ℚ :=
  sim.scaled_pop_size - sim.exposed_ever

/-- The observed infectious count `I = np.sum(sim.people.infectious)` of
line 61. -/
def obsI (sim : Sim) : ℚ :=
  sim.infectious_count

/-- The aggregate observation `y = sim.results['n_exposed'][sim.t-1]` of
line 58. -/
def obsY (sim : Sim) : ℚ :=
  sim.n_exposed (sim.t - 1)

/-- The derived exposed count `E = y - I` of line 62. -/
def obsE (sim : Sim) : ℚ :=
  obsY sim - obsI sim

/-- The five layer keys updated at line 119. -/
def layerKeys : List String :=
  ["h", "s", "w", "c", "l"]

/-- The open-loop control input of line 67:
`u = sim.results['new_infections'][sim.t-1]`. -/
def openLoopU (sim : Sim) : ℚ :=
  sim.new_infections (sim.t - 1)

/-- The open-loop branch of `apply` (lines 66–68): the estimator is updated
with the simulation's own new-infection count; nothing else is mutated. -/
def openLoopStep {K : Type} (hk : Hooks K) (st : CtrlState K) (sim : Sim) :
    ApplyResult K :=
  { st := { st with
      kalman := hk.kalmanUpdate st.kalman (obsE sim) (obsI sim) (openLoopU sim) },
    sim := sim,
    log := [Event.kalmanUpdateCall (obsE sim) (obsI sim) (openLoopU sim)] }

/-- The clamped control signal of lines 86–89:
`u = np.maximum(Controller.get_control(vstack([Kalman.EIhat, integrated_err])), 0)`. -/
def closedU {K : Type} (hk : Hooks K) (st : CtrlState K) : ℚ :=
  max (hk.getControl (hk.kalmanEIhat st.kalman ++ [st.integrated_err])) 0

/-- The estimator state after the closed-loop `Kalman.update(E, I, u)` of
line 92. -/
def closedKalman {K : Type} (hk : Hooks K) (st : CtrlState K) (sim : Sim) : K :=
  hk.kalmanUpdate st.kalman (obsE sim) (obsI sim) (closedU hk st)

/-- The up-weighted infectious estimate of lines 98–101:
`xi = np.sum(Ihat) + np.sum(Ihat[:3])`, computed from the post-update
estimator state. -/
def closedXi {K : Type} (hk : Hooks K) (st : CtrlState K) (sim : Sim) : ℚ :=
  (hk.kalmanIhat (closedKalman hk st sim)).sum +
    ((hk.kalmanIhat (closedKalman hk st sim)).take 3).sum

/-- The new transmission rate of lines 103–112: if `xi > 0` then
`np.maximum(u / (S * xi**Ipow / N), 0) / 18`, otherwise the stored baseline
`beta0`. -/
def closedNewBeta {K : Type} (hk : Hooks K) (st : CtrlState K) (sim : Sim) : ℚ :=
  if 0 < closedXi hk st sim then
    max (closedU hk st /
      (obsS sim * hk.npPower (closedXi hk st sim) st.Ipow / sim.scaled_pop_size)) 0 / 18
  else
    st.beta0

/-- The closed-loop branch of `apply` (lines 84–128): compute and clamp the
control signal, update the estimator, compute the new rate, rescale the five
layer rates by `beta_layer0[lk] * new_beta / beta0` (line 120), record the
rate in `u_k[sim.t]` (line 121), and accumulate the integral error
(line 128).  The `if False:` branch of lines 114–116 never assigns
`sim.pars['beta']`. -/
def closedLoopStep {K : Type} (hk : Hooks K) (st : CtrlState K) (sim : Sim) :
    ApplyResult K :=
  { st := { st with
      kalman := closedKalman hk st sim,
      u_k := fun j => if j = sim.t then closedNewBeta hk st sim else st.u_k j,
      integrated_err := st.integrated_err + obsY sim - st.targets_infected },
    sim := { sim with pars :=
      { beta := sim.pars.beta,
        beta_layer := fun lk =>
          if lk ∈ layerKeys then
            st.beta_layer0 lk * closedNewBeta hk st sim / st.beta0
          else sim.pars.beta_layer lk } },
    log := [Event.getControlCall,
        Event.kalmanUpdateCall (obsE sim) (obsI sim) (closedU hk st)] ++
      (if 0 < closedXi hk st sim then [] else [Event.warningNegativeEstimate]) }

/-- controller_intervention.apply (controller_intervention.py lines 52–130):
the regime test of line 66 is `sim.t < self.start_day or S*I == 0`. -/
def controller_intervention.apply {K : Type} (hk : Hooks K) (st : CtrlState K)
    (sim : Sim) : ApplyResult K :=
  if sim.t < st.start_day ∨ obsS sim * obsI sim = 0 then openLoopStep hk st sim
  else closedLoopStep hk st sim

/-- Concrete estimator/controller hooks used to instantiate the orchestrator
theorems: the estimator state is trivial and the infectious estimate is the
constant vector `[1, 1, 1]`. -/
def hkW : Hooks Unit :=
  { kalmanUpdate := fun k _ _ _ => k,
    kalmanEIhat := fun _ => [1, 1],
    kalmanIhat := fun _ => [1, 1, 1],
    getControl := fun _ => 2,
    npPower := fun x _ => x }

/-- Concrete hooks whose infectious estimate `[-1]` is negative, driving the
orchestrator into the warning branch. -/
def hkW8 : Hooks Unit :=
  { hkW with kalmanIhat := fun _ => [-1] }

/-- Concrete simulator parameters for the witnesses. -/
def parsW : SimPars :=
  { beta := 1 / 2, beta_layer := fun _ => 1 / 4 }

/-- Concrete simulator snapshot on day 7 with 90 susceptible and 5 infectious
individuals out of 100. -/
def simW : Sim :=
  { t := 7, n_exposed := fun _ => 30, new_infections := fun _ => 3,
    scaled_pop_size := 100, exposed_ever := 10, infectious_count := 5,
    pars := parsW }

/-- The same snapshot on day 2, before the activation day of `stW`. -/
def simW2 : Sim :=
  { simW with t := 2 }

/-- Concrete intervention state with activation day 5 and baseline rate 1/2. -/
def stW : CtrlState Unit :=
  { start_day := 5, targets_infected := 20, beta0 := 1 / 2,
    beta_layer0 := fun _ => 1 / 4, u_k := fun _ => 0, integrated_err := 1,
    Ipow := 1, kalman := () }

theorem triNat_succ (n : ℕ) : triNat (n + 1) = triNat n + (n + 1) := by
  have h : (n + 1) * (n + 2) = n * (n + 1) + 2 * (n + 1) := by ring
  rw [triNat, triNat, h, Nat.add_mul_div_left _ _ (by norm_num : 0 < 2)]

theorem triNat_le_triNat {i n : ℕ} (h : i ≤ n) : triNat i ≤ triNat n :=
  Nat.div_le_div_right (Nat.mul_le_mul h (by omega))

theorem triNat_add_lt {i j n : ℕ} (h1 : j ≤ i) (h2 : i < n) :
    triNat i + j < triNat n := by
  have h3 : triNat (i + 1) ≤ triNat n := triNat_le_triNat h2
  have h4 := triNat_succ i
  omega

theorem length_lowerTriFlatten (n : ℕ) (L : ℕ → ℕ → ℚ) :
    (lowerTriFlatten n L).length = triNat n := by
  induction n with
  | zero => simp [lowerTriFlatten, triNat]
  | succ n ih =>
    have h : lowerTriFlatten (n + 1) L
        = lowerTriFlatten n L ++ (List.range (n + 1)).map fun j => L n j := by
      simp [lowerTriFlatten, List.range_succ]
    rw [h, List.length_append, ih, List.length_map, List.length_range, triNat_succ]

theorem triN_triNat (n : ℕ) : triN (triNat n) = n := by
  obtain ⟨c, hc⟩ := Nat.even_mul_succ_self n
  have h1 : triNat n = c := by rw [triNat, hc]; omega
  have key : 1 + 8 * triNat n = (2 * n + 1) * (2 * n + 1) := by
    have h3 : (2 * n + 1) * (2 * n + 1) = 4 * (n * (n + 1)) + 1 := by ring
    rw [h1, h3, hc]; ring
  rw [triN, key, Nat.sqrt_eq]
  omega

theorem getD_lowerTriFlatten (L : ℕ → ℕ → ℚ) :
    ∀ n i j, j ≤ i → i < n →
      (lowerTriFlatten n L).getD (triNat i + j) 0 = L i j := by
  intro n
  induction n with
  | zero => intro i j _ h2; omega
  | succ n ih =>
    intro i j h1 h2
    have hsplit : lowerTriFlatten (n + 1) L
        = lowerTriFlatten n L ++ (List.range (n + 1)).map fun q => L n q := by
      simp [lowerTriFlatten, List.range_succ]
    rcases Nat.lt_or_ge i n with hin | hin
    · rw [hsplit, List.getD_append]
      · exact ih i j h1 hin
      · rw [length_lowerTriFlatten]; exact triNat_add_lt h1 hin
    · have hni : i = n := by omega
      subst hni
      rw [hsplit, List.getD_append_right _ _ _ _
        (by rw [length_lowerTriFlatten]; omega)]
      rw [length_lowerTriFlatten]
      have hsub : triNat i + j - triNat i = j := by omega
      rw [hsub]
      have hlen : j < ((List.range (i + 1)).map fun q => L i q).length := by
        simpa using by omega
      rw [List.getD_eq_getElem _ _ hlen, List.getElem_map, List.getElem_range]

theorem getD_take_eq (l : List ℚ) (m idx : ℕ) (h : idx < m) :
    (l.take m).getD idx 0 = l.getD idx 0 := by
  rcases Nat.lt_or_ge idx l.length with hl | hl
  · rw [List.getD_eq_getElem _ _ (by simp [hl, h]), List.getD_eq_getElem _ _ hl]
    simp [List.getElem_take]
  · rw [List.getD_eq_default, List.getD_eq_default _ _ hl]
    simp [hl]

/-- C3: for every `n ≥ 1` and every `n×n` lower-triangular entry function `L`,
applying `TransitionMatrix.full` to the row-major flattening of `L`'s lower
triangle (diagonal included, `n(n+1)/2` values) returns exactly `L`: the
result is `n×n` and agrees with `L` at every position (positions above the
diagonal are zero on both sides, by lower-triangularity of `L`). -/
theorem C3_triangular_round_trip (n : ℕ) (L : ℕ → ℕ → ℚ) (hn : 1 ≤ n)
    (hL : ∀ i j, i < j → L i j = 0) :
    (TransitionMatrix.full (lowerTriFlatten n L)).rows = n ∧
    (TransitionMatrix.full (lowerTriFlatten n L)).cols = n ∧
    ∀ i j, i < n → j < n →
      (TransitionMatrix.full (lowerTriFlatten n L)).entry i j = L i j := by
  have hdim : triN (lowerTriFlatten n L).length = n := by
    rw [length_lowerTriFlatten, triN_triNat]
  refine ⟨?_, ?_, ?_⟩
  · simp [TransitionMatrix.full, hdim]
  · simp [TransitionMatrix.full, hdim]
  · intro i j hi hj
    by_cases hji : j ≤ i
    · simp only [TransitionMatrix.full, hdim]
      rw [if_pos ⟨hi, hj, hji⟩]
      exact getD_lowerTriFlatten L n i j hji hi
    · simp only [TransitionMatrix.full, hdim]
      rw [if_neg (by tauto), hL i j (by omega)]

/-- Witness for C3 at `n = 2` with the concrete lower-triangular `LC3`. -/
theorem C3_triangular_round_trip_witness :
    (TransitionMatrix.full (lowerTriFlatten 2 LC3)).rows = 2 ∧
    (TransitionMatrix.full (lowerTriFlatten 2 LC3)).entry 1 0 = LC3 1 0 := by
  have h := C3_triangular_round_trip 2 LC3 (by norm_num)
    (fun i j hij => by simp only [LC3]; rw [if_neg (by omega : ¬ j ≤ i)])
  exact ⟨h.1, h.2.2 1 0 (by norm_num) (by norm_num)⟩

/-- C4 counterexample: `k = 2` is not a triangular number, yet
`TransitionMatrix.full [1, 2]` raises nothing — it returns an ordinary `1×1`
matrix built from the first value, the second being ignored (the source
contains no `ConfigurationError` and `np.put` discards surplus values). -/
theorem C4_no_failure_on_non_triangular_length :
    (TransitionMatrix.full [1, 2]).rows = 1 ∧
    (TransitionMatrix.full [1, 2]).entry 0 0 = 1 ∧
    (TransitionMatrix.full [1, 2]).entry 0 1 = 0 := by
  have hs : Nat.sqrt 17 = 4 := by
    have hlo : 4 ≤ Nat.sqrt 17 := Nat.le_sqrt.mpr (by norm_num)
    have hhi : Nat.sqrt 17 < 5 := Nat.sqrt_lt.mpr (by norm_num)
    omega
  have htn : triN 2 = 1 := by
    rw [triN]
    norm_num [hs]
  refine ⟨?_, ?_, ?_⟩
  · simp [TransitionMatrix.full, htn]
  · simp only [TransitionMatrix.full]
    norm_num [htn, triNat]
  · simp only [TransitionMatrix.full]
    norm_num [htn]

/-- C4 amended: `TransitionMatrix.full` never fails.  For every input length
`k` it returns the `n×n` matrix for the unique `n` with
`n(n+1)/2 ≤ k < (n+1)(n+2)/2` (so for triangular `k` exactly the advertised
dimension), built from the first `n(n+1)/2` values with any surplus values
ignored. -/
theorem C4_total_with_truncation (p : List ℚ) :
    triNat (triN p.length) ≤ p.length ∧
    p.length < triNat (triN p.length + 1) ∧
    (TransitionMatrix.full p).rows = triN p.length ∧
    ∀ i j, (TransitionMatrix.full p).entry i j
      = (TransitionMatrix.full (p.take (triNat (triN p.length)))).entry i j := by
  have h1 : Nat.sqrt (1 + 8 * p.length) * Nat.sqrt (1 + 8 * p.length)
      ≤ 1 + 8 * p.length := Nat.sqrt_le _
  have h2 : 1 + 8 * p.length <
      (Nat.sqrt (1 + 8 * p.length) + 1) * (Nat.sqrt (1 + 8 * p.length) + 1) :=
    Nat.lt_succ_sqrt _
  have hs1 : 1 ≤ Nat.sqrt (1 + 8 * p.length) := by
    have := Nat.sqrt_le_sqrt (show 1 ≤ 1 + 8 * p.length by omega)
    simpa using this
  have h3 : 2 * triN p.length + 1 ≤ Nat.sqrt (1 + 8 * p.length) := by
    rw [triN]; omega
  have h4 : Nat.sqrt (1 + 8 * p.length) ≤ 2 * triN p.length + 2 := by
    rw [triN]; omega
  have hb1 : 4 * (triN p.length * triN p.length) + 4 * triN p.length + 1
      ≤ 1 + 8 * p.length := by
    have hm : (2 * triN p.length + 1) * (2 * triN p.length + 1)
        = 4 * (triN p.length * triN p.length) + 4 * triN p.length + 1 := by ring
    calc 4 * (triN p.length * triN p.length) + 4 * triN p.length + 1
        = (2 * triN p.length + 1) * (2 * triN p.length + 1) := hm.symm
      _ ≤ Nat.sqrt (1 + 8 * p.length) * Nat.sqrt (1 + 8 * p.length) :=
          Nat.mul_le_mul h3 h3
      _ ≤ 1 + 8 * p.length := h1
  have hb2 : 1 + 8 * p.length
      < 4 * (triN p.length * triN p.length) + 12 * triN p.length + 9 := by
    have hm : (2 * triN p.length + 3) * (2 * triN p.length + 3)
        = 4 * (triN p.length * triN p.length) + 12 * triN p.length + 9 := by ring
    calc 1 + 8 * p.length
        < (Nat.sqrt (1 + 8 * p.length) + 1) * (Nat.sqrt (1 + 8 * p.length) + 1) := h2
      _ ≤ (2 * triN p.length + 3) * (2 * triN p.length + 3) :=
          Nat.mul_le_mul (by omega) (by omega)
      _ = 4 * (triN p.length * triN p.length) + 12 * triN p.length + 9 := hm
  have htri : triNat (triN p.length)
      = (triN p.length * triN p.length + triN p.length) / 2 := by
    have h : triN p.length * (triN p.length + 1)
        = triN p.length * triN p.length + triN p.length := by ring
    rw [triNat, h]
  have htri2 : triNat (triN p.length + 1)
      = (triN p.length * triN p.length + 3 * triN p.length + 2) / 2 := by
    have h : (triN p.length + 1) * (triN p.length + 1 + 1)
        = triN p.length * triN p.length + 3 * triN p.length + 2 := by ring
    rw [triNat, h]
  obtain ⟨c1, hc1⟩ := Nat.even_mul_succ_self (triN p.length)
  have hc1q : triN p.length * triN p.length + triN p.length = 2 * c1 := by
    have : triN p.length * (triN p.length + 1)
        = triN p.length * triN p.length + triN p.length := by ring
    omega
  obtain ⟨c2, hc2⟩ := Nat.even_mul_succ_self (triN p.length + 1)
  have hc2q : triN p.length * triN p.length + 3 * triN p.length + 2 = 2 * c2 := by
    have : (triN p.length + 1) * (triN p.length + 1 + 1)
        = triN p.length * triN p.length + 3 * triN p.length + 2 := by ring
    omega
  have hle : triNat (triN p.length) ≤ p.length := by
    rw [htri, hc1q]; omega
  have hlt : p.length < triNat (triN p.length + 1) := by
    rw [htri2, hc2q]; omega
  have hdims : triN (p.take (triNat (triN p.length))).length = triN p.length := by
    rw [List.length_take, Nat.min_eq_left hle, triN_triNat]
  refine ⟨hle, hlt, rfl, ?_⟩
  intro i j
  by_cases hcond : i < triN p.length ∧ j < triN p.length ∧ j ≤ i
  · simp only [TransitionMatrix.full, hdims]
    rw [if_pos hcond, if_pos hcond]
    exact (getD_take_eq p _ _ (triNat_add_lt hcond.2.2 hcond.1)).symm
  · simp only [TransitionMatrix.full, hdims]
    rw [if_neg hcond, if_neg hcond]

/-- C2: for every input, the `SEIR` constructor raises `AttributeError` (the
lookup of the never-assigned `nIR` in `_build`, line 33) and never returns a
constructed model; had `_build` returned, the call to the nonexistent
`check_controllability` (line 26, defined only inside the string literal of
lines 68–74) would raise `AttributeError` as well. -/
theorem C2_constructor_always_attribute_error (nSteps : ℕ) (dt : ℚ)
    (EI IR : Mat) (C : Option Unit) :
    SEIR_init nSteps dt EI IR C = Except.error (PyErr.attributeError ("nIR")) :=
  rfl

/-- C1: the claim "observable configurations construct successfully and
rank-deficient ones raise ModelInvalidError" fails on the code: even for the
concrete `nE = nI = 1` configuration `EI = [[1/2]]`, `IR = [[1/4]]` — whose
E/I observability matrix `[C; C·A] = [[1,1],[1,1/4]]` has nonzero determinant
and hence full rank 2 — construction raises `AttributeError` inside `_build`
before the observability check (or any `assert`) can run. -/
theorem C1_construction_crashes_before_observability :
    SEIR_init 10 1 EIc1 IRc1 (some ()) =
      Except.error (PyErr.attributeError ("nIR")) ∧
    (obsStack2 AsubC1 CsubC1).det ≠ 0 := by
  constructor
  · rfl
  · rw [Matrix.det_fin_two]
    simp only [obsStack2, AsubC1, CsubC1, Matrix.of_apply, Fin.sum_univ_two]
    norm_num

/-- C5: for valid sub-transition matrices `EI` and `IR` (lower-triangular,
entries in `[0,1]`, column sums at most 1, at least one sub-stage each), every
column of the assembled state-transition matrix `A` (the `np.block` expression
of SEIR._build, lines 40–44) sums to 1: the S column is the identity column,
each E-stage column contributes its `EI` column sum plus the inflow
`1 - colsum(EI)` in the first I-stage row, each I-stage column contributes its
`IR` column sum plus `1 - colsum(IR)` in the R row, and the R column is the
identity column. -/
theorem C5_column_mass_conservation (nEI nIR : ℕ)
    (EI : Matrix (Fin nEI) (Fin nEI) ℚ) (IR : Matrix (Fin nIR) (Fin nIR) ℚ)
    (hnEI : 0 < nEI) (hnIR : 0 < nIR)
    (hEIlow : ∀ i j : Fin nEI, (i : ℕ) < (j : ℕ) → EI i j = 0)
    (hIRlow : ∀ i j : Fin nIR, (i : ℕ) < (j : ℕ) → IR i j = 0)
    (hEI01 : ∀ i j : Fin nEI, 0 ≤ EI i j ∧ EI i j ≤ 1)
    (hIR01 : ∀ i j : Fin nIR, 0 ≤ IR i j ∧ IR i j ≤ 1)
    (hEIcol : ∀ j : Fin nEI, ∑ i, EI i j ≤ 1)
    (hIRcol : ∀ j : Fin nIR, ∑ i, IR i j ≤ 1)
    (c : (Unit ⊕ Fin nEI) ⊕ (Fin nIR ⊕ Unit)) :
    ∑ r, buildA nEI nIR EI IR r c = 1 := by
  have hsingle : ∀ x : ℚ,
      (∑ i : Fin nIR, if (i : ℕ) = 0 then x else 0) = x := by
    intro x
    rw [Finset.sum_eq_single (⟨0, hnIR⟩ : Fin nIR)]
    · simp
    · intro b _ hb
      rw [if_neg]
      intro hb0
      exact hb (Fin.ext hb0)
    · intro h
      exact absurd (Finset.mem_univ _) h
  rcases c with (⟨⟩ | j) | (j | ⟨⟩)
  · simp only [Fintype.sum_sum_type, Fintype.sum_unique, buildA,
      Matrix.fromBlocks_apply₁₁, Matrix.fromBlocks_apply₂₁,
      Matrix.zero_apply, Matrix.one_apply_eq, Finset.sum_const_zero]
    ring
  · simp only [Fintype.sum_sum_type, Fintype.sum_unique, buildA,
      Matrix.fromBlocks_apply₁₁, Matrix.fromBlocks_apply₂₁,
      Matrix.fromBlocks_apply₁₂, Matrix.fromBlocks_apply₂₂,
      Matrix.zero_apply, belowEIblock, Matrix.of_apply, Finset.sum_const_zero]
    rw [hsingle]
    ring
  · simp only [Fintype.sum_sum_type, Fintype.sum_unique, buildA,
      Matrix.fromBlocks_apply₁₂, Matrix.fromBlocks_apply₂₂,
      Matrix.fromBlocks_apply₁₁, Matrix.fromBlocks_apply₂₁,
      Matrix.zero_apply, belowIRblock, Matrix.of_apply, Finset.sum_const_zero]
    ring
  · simp only [Fintype.sum_sum_type, Fintype.sum_unique, buildA,
      Matrix.fromBlocks_apply₁₂, Matrix.fromBlocks_apply₂₂,
      Matrix.zero_apply, Matrix.one_apply_eq, Finset.sum_const_zero]
    ring

/-- Witness for C5 at the concrete `nEI = nIR = 1` configuration
`EI = [[1/2]]`, `IR = [[1/3]]`, evaluated at the E-stage column. -/
theorem C5_column_mass_conservation_witness :
    ∑ r, buildA 1 1 EIW IRW r (Sum.inl (Sum.inr 0)) = 1 :=
  C5_column_mass_conservation 1 1 EIW IRW (by norm_num) (by norm_num)
    (fun i j h => absurd h (by have := i.isLt; have := j.isLt; omega))
    (fun i j h => absurd h (by have := i.isLt; have := j.isLt; omega))
    (fun _ _ => by constructor <;> norm_num [EIW])
    (fun _ _ => by constructor <;> norm_num [IRW])
    (fun j => by simp [EIW, Fin.sum_univ_one]; norm_num)
    (fun j => by simp [IRW, Fin.sum_univ_one]; norm_num)
    (Sum.inl (Sum.inr 0))

/-- C6: on every invocation of `apply`, the estimator's `update` is called
exactly once, in both regimes; `get_control` is called iff
`t ≥ start_day` and both the observed susceptible and infectious counts are
nonzero (the line-66 test `sim.t < start_day or S*I == 0` negated); and in the
open-loop regime the control input fed to the estimator is the previous day's
observed new-infection count `sim.results['new_infections'][sim.t-1]`. -/
theorem C6_estimator_once_controller_gated {K : Type} (hk : Hooks K)
    (st : CtrlState K) (sim : Sim) :
    ((controller_intervention.apply hk st sim).log.countP Event.isKalmanUpdate
      = 1) ∧
    (Event.getControlCall ∈ (controller_intervention.apply hk st sim).log ↔
      st.start_day ≤ sim.t ∧ obsS sim ≠ 0 ∧ obsI sim ≠ 0) ∧
    ((sim.t < st.start_day ∨ obsS sim * obsI sim = 0) →
      Event.kalmanUpdateCall (obsE sim) (obsI sim)
          (sim.new_infections (sim.t - 1)) ∈
        (controller_intervention.apply hk st sim).log) := by
  by_cases h : sim.t < st.start_day ∨ obsS sim * obsI sim = 0
  · rw [controller_intervention.apply, if_pos h]
    refine ⟨?_, ?_, ?_⟩
    · simp [openLoopStep, Event.isKalmanUpdate]
    · simp only [openLoopStep]
      constructor
      · intro hmem
        exact absurd (List.mem_singleton.mp hmem) (by simp)
      · intro ⟨hle, hS, hI⟩
        rcases h with h | h
        · exact absurd hle (not_le.mpr h)
        · exact absurd h (mul_ne_zero hS hI)
    · intro _
      simp [openLoopStep, openLoopU]
  · rw [controller_intervention.apply, if_neg h]
    push_neg at h
    refine ⟨?_, ?_, ?_⟩
    · simp only [closedLoopStep, List.countP_append, List.countP_cons,
        List.countP_nil, Event.isKalmanUpdate]
      by_cases hxi : 0 < closedXi hk st sim
      · rw [if_pos hxi]
        simp [Event.isKalmanUpdate]
      · rw [if_neg hxi]
        simp [Event.isKalmanUpdate]
    · simp only [closedLoopStep]
      constructor
      · intro _
        exact ⟨h.1, (mul_ne_zero_iff.mp h.2).1, (mul_ne_zero_iff.mp h.2).2⟩
      · intro _
        simp
    · intro hcontra
      rcases hcontra with hc | hc
      · exact absurd hc (not_lt.mpr h.1)
      · exact absurd hc h.2

/-- C7: on every open-loop/warm-up day (`t < start_day`, or an observed
susceptible or infectious count of zero), `apply` leaves the simulator's
transmission-rate parameters (`beta` and every `beta_layer` entry), the
accumulated integral error, and the stored rate trajectory `u_k` unchanged;
the only mutated field is the estimator state, updated once. -/
theorem C7_open_loop_frame {K : Type} (hk : Hooks K) (st : CtrlState K)
    (sim : Sim) (h : sim.t < st.start_day ∨ obsS sim * obsI sim = 0) :
    (controller_intervention.apply hk st sim).sim = sim ∧
    (controller_intervention.apply hk st sim).sim.pars = sim.pars ∧
    (controller_intervention.apply hk st sim).st.integrated_err
      = st.integrated_err ∧
    (controller_intervention.apply hk st sim).st.u_k = st.u_k ∧
    (controller_intervention.apply hk st sim).st =
      { st with kalman := hk.kalmanUpdate st.kalman (obsE sim) (obsI sim) (openLoopU sim) } := by
  rw [controller_intervention.apply, if_pos h]
  exact ⟨rfl, rfl, rfl, rfl, rfl⟩

/-- Witness for C7 on day 2, before the activation day 5 of `stW`. -/
theorem C7_open_loop_frame_witness :
    (controller_intervention.apply hkW stW simW2).sim = simW2 :=
  (C7_open_loop_frame hkW stW simW2 (Or.inl (by decide))).1

/-- C8: on every closed-loop day on which the up-weighted infectious estimate
is non-positive, `apply` sets each of the five updated contact layers back to
exactly its stored pre-control rate (`beta_layer0[lk] * beta0 / beta0`),
records the baseline rate in `u_k[t]`, emits the warning diagnostic of
line 111, and performs no division by the infectious estimate. -/
theorem C8_degenerate_estimate_fallback {K : Type} (hk : Hooks K)
    (st : CtrlState K) (sim : Sim)
    (hcl : ¬ (sim.t < st.start_day ∨ obsS sim * obsI sim = 0))
    (hxi : closedXi hk st sim ≤ 0) (hb : st.beta0 ≠ 0) :
    (∀ lk ∈ layerKeys,
      (controller_intervention.apply hk st sim).sim.pars.beta_layer lk =
        st.beta_layer0 lk) ∧
    (controller_intervention.apply hk st sim).st.u_k sim.t = st.beta0 ∧
    Event.warningNegativeEstimate ∈
      (controller_intervention.apply hk st sim).log := by
  rw [controller_intervention.apply, if_neg hcl]
  have hnb : closedNewBeta hk st sim = st.beta0 := by
    rw [closedNewBeta, if_neg (not_lt.mpr hxi)]
  refine ⟨?_, ?_, ?_⟩
  · intro lk hlk
    simp only [closedLoopStep]
    rw [if_pos hlk, hnb, mul_div_assoc, div_self hb, mul_one]
  · simp only [closedLoopStep]
    rw [if_pos trivial, hnb]
  · simp only [closedLoopStep]
    rw [if_neg (not_lt.mpr hxi)]
    simp

/-- Witness for C8 with the hooks `hkW8`, whose infectious estimate `[-1]`
makes the up-weighted sum `-2`. -/
theorem C8_degenerate_estimate_fallback_witness :
    (controller_intervention.apply hkW8 stW simW).st.u_k simW.t = stW.beta0 :=
  (C8_degenerate_estimate_fallback hkW8 stW simW
    (by norm_num [obsS, obsI, simW, parsW, stW])
    (by norm_num [closedXi, closedKalman, closedU, hkW8, hkW])
    (by norm_num [stW])).2.1

/-- C9: on every closed-loop day whose up-weighted infectious estimate is
positive, the new transmission rate equals
`max(u / (S_est * xi**Ipow / N), 0)` divided by 18 — the number of simulated
contact layers (line 109) — where `u` is the clamped non-negative control
signal (`closedU`), `S_est` the observed susceptible count, and `xi` the sum
of the estimated infectious sub-states with the first three added a second
time (`closedXi`); the same rate is recorded in `u_k[t]` and drives the
per-layer update. -/
theorem C9_closed_loop_rate_formula {K : Type} (hk : Hooks K)
    (st : CtrlState K) (sim : Sim)
    (hcl : ¬ (sim.t < st.start_day ∨ obsS sim * obsI sim = 0))
    (hxi : 0 < closedXi hk st sim) :
    (controller_intervention.apply hk st sim).st.u_k sim.t =
      max (closedU hk st /
        (obsS sim * hk.npPower (closedXi hk st sim) st.Ipow /
          sim.scaled_pop_size)) 0 / 18 ∧
    ∀ lk ∈ layerKeys,
      (controller_intervention.apply hk st sim).sim.pars.beta_layer lk =
        st.beta_layer0 lk *
          (max (closedU hk st /
            (obsS sim * hk.npPower (closedXi hk st sim) st.Ipow /
              sim.scaled_pop_size)) 0 / 18) / st.beta0 := by
  rw [controller_intervention.apply, if_neg hcl]
  have hnb : closedNewBeta hk st sim =
      max (closedU hk st /
        (obsS sim * hk.npPower (closedXi hk st sim) st.Ipow /
          sim.scaled_pop_size)) 0 / 18 := by
    rw [closedNewBeta, if_pos hxi]
  constructor
  · simp only [closedLoopStep]
    rw [if_pos trivial, hnb]
  · intro lk hlk
    simp only [closedLoopStep]
    rw [if_pos hlk, hnb]

/-- Witness for C9 with the hooks `hkW`, whose infectious estimate `[1,1,1]`
makes the up-weighted sum 6. -/
theorem C9_closed_loop_rate_formula_witness :
    (controller_intervention.apply hkW stW simW).st.u_k simW.t =
      max (closedU hkW stW /
        (obsS simW * hkW.npPower (closedXi hkW stW simW) stW.Ipow /
          simW.scaled_pop_size)) 0 / 18 :=
  (C9_closed_loop_rate_formula hkW stW simW
    (by norm_num [obsS, obsI, simW, parsW, stW])
    (by norm_num [closedXi, closedKalman, closedU, hkW])).1

/-- C10: on every closed-loop day, each of the five updated contact layers
gets its stored original rate times the common multiplier
`new_rate / beta0` (where `new_rate` is the value recorded in `u_k[t]`), so
for every pair of layers with nonzero original rates the cross-multiplied
ratio of updated rates equals that of the originals. -/
theorem C10_layer_scaling_proportional {K : Type} (hk : Hooks K)
    (st : CtrlState K) (sim : Sim)
    (hcl : ¬ (sim.t < st.start_day ∨ obsS sim * obsI sim = 0)) :
    (∀ lk ∈ layerKeys,
      (controller_intervention.apply hk st sim).sim.pars.beta_layer lk =
        st.beta_layer0 lk *
          ((controller_intervention.apply hk st sim).st.u_k sim.t /
            st.beta0)) ∧
    ∀ lk1 ∈ layerKeys, ∀ lk2 ∈ layerKeys,
      st.beta_layer0 lk1 ≠ 0 → st.beta_layer0 lk2 ≠ 0 →
      (controller_intervention.apply hk st sim).sim.pars.beta_layer lk1 *
          st.beta_layer0 lk2 =
        (controller_intervention.apply hk st sim).sim.pars.beta_layer lk2 *
          st.beta_layer0 lk1 := by
  rw [controller_intervention.apply, if_neg hcl]
  constructor
  · intro lk hlk
    simp only [closedLoopStep]
    rw [if_pos hlk, if_pos trivial, mul_div_assoc]
  · intro lk1 h1 lk2 h2 _ _
    simp only [closedLoopStep]
    rw [if_pos h1, if_pos h2]
    ring

/-- Witness for C10 at the layers `h` and `s` of the concrete closed-loop
day. -/
theorem C10_layer_scaling_proportional_witness :
    (controller_intervention.apply hkW stW simW).sim.pars.beta_layer ("h") *
        stW.beta_layer0 ("s") =
      (controller_intervention.apply hkW stW simW).sim.pars.beta_layer ("s") *
        stW.beta_layer0 ("h") :=
  (C10_layer_scaling_proportional hkW stW simW
    (by norm_num [obsS, obsI, simW, parsW, stW])).2
    ("h") (by simp [layerKeys]) ("s") (by simp [layerKeys])
    (by norm_num [stW]) (by norm_num [stW])

/-- Witness for C6 on the concrete open-loop day 2. -/
theorem C6_estimator_once_controller_gated_witness :
    (controller_intervention.apply hkW stW simW2).log.countP
      Event.isKalmanUpdate = 1 :=
  (C6_estimator_once_controller_gated hkW stW simW2).1

end InsideSchools
